import Mathlib

/-!
Verification of the razer-ctl protocol core: the fixed-size HID packet codec
(src/librazer/src/packet.rs), its request/response validation, and the
command-layer state-machine preconditions (src/librazer/src/command.rs and
src/src/razer/command.rs), shallowly embedded over Nat-valued bytes with a
mocked transport.
-/

namespace RazerCtl

/-- Wire packet from src/librazer/src/packet.rs (struct Packet). Every u8
field is a Nat below 256 for well-formed packets; remaining_packets is a u16.
The args field holds the fixed 80-byte zero-padded payload buffer. -/
structure Packet where
  status : Nat
  id : Nat
  remaining_packets : Nat
  protocol_type : Nat
  data_size : Nat
  command_class : Nat
  command_id : Nat
  args : List Nat
  crc : Nat
  reserved : Nat
deriving Repr, DecidableEq

/-- CommandStatus::New = 0x00. -/
def CommandStatus.New : Nat := 0x00

/-- CommandStatus::Successful = 0x02. -/
def CommandStatus.Successful : Nat := 0x02

/-- CommandStatus::NotSupported = 0x05. -/
def CommandStatus.NotSupported : Nat := 0x05

/-- copy of the caller args into the zeroed 80-byte buffer performed by
Packet::new: args_buffer[..args.len()].copy_from_slice(args). The Rust range
indexing panics when args.len() > 80; the none result models that panic. -/
def copyArgsBuffer (args : List Nat) : Option (List Nat) :=
  if args.length ≤ 80 then some (args ++ List.replicate (80 - args.length) 0) else none

/-- Packet::new (packet.rs lines 64-80): builds a request for a 16-bit command
split into class and id bytes, with the args copied into the zeroed buffer.
The id drawn from thread_rng is a parameter of the embedding. Returns none
exactly when the Rust code panics (args longer than the buffer). The casts
(command >> 8) as u8, (command & 0xff) as u8 and args.len() as u8 are the
explicit reductions mod 256. -/
def Packet.new? (command id : Nat) (args : List Nat) : Option Packet :=
  (copyArgsBuffer args).map fun buffer =>
    { status := CommandStatus.New
      id := id
      remaining_packets := 0x0000
      protocol_type := 0x00
      data_size := args.length % 256
      command_class := command / 256 % 256
      command_id := command % 256
      args := buffer
      crc := 0x00
      reserved := 0x00 }

/-- total form of Packet.new? on argument lists within the 80-byte capacity
(every command-layer call site passes a literal list of length at most 4);
packet_new_agrees relates the two. -/
def Packet.new (command id : Nat) (args : List Nat) : Packet :=
  { status := CommandStatus.New
    id := id
    remaining_packets := 0x0000
    protocol_type := 0x00
    data_size := args.length % 256
    command_class := command / 256 % 256
    command_id := command % 256
    args := args ++ List.replicate (80 - args.length) 0
    crc := 0x00
    reserved := 0x00 }

/-- distinguishable failures of Packet::ensure_matches_report: the correlation
mismatch, the NotSupported status, and the generic unknown status carrying the
raw status byte. -/
inductive ValidateError where
  | responseMismatch
  | notSupported
  | unknownStatus (raw : Nat)
deriving Repr, DecidableEq

/-- Packet::ensure_matches_report (packet.rs lines 90-117). self is the
decoded response and report the original request, as called from Device::send:
first the four correlation fields are compared as one tuple, then the response
status is discriminated three ways. -/
def Packet.ensure_matches_report (self : Packet) (report : Packet) :
    Except ValidateError Packet :=
  if (report.remaining_packets, report.command_class, report.command_id, report.id) ≠
      (self.remaining_packets, self.command_class, self.command_id, self.id) then
    .error .responseMismatch
  else if self.status = CommandStatus.NotSupported then
    .error .notSupported
  else if self.status ≠ CommandStatus.Successful then
    .error (.unknownStatus self.status)
  else
    .ok self

/-- bincode serialization of a packet (impl From for Vec of u8, packet.rs
lines 120-124): fixed-width little-endian layout in field declaration order;
the u16 remaining_packets becomes a low byte then a high byte. For a
well-formed packet (args of length 80) the output has 90 bytes. -/
def Packet.toBytes (p : Packet) : List Nat :=
  [p.status, p.id, p.remaining_packets % 256, p.remaining_packets / 256 % 256,
    p.protocol_type, p.data_size, p.command_class, p.command_id]
    ++ p.args ++ [p.crc, p.reserved]

/-- size_of::<Packet>(): 8 one-byte fields, one u16 and the 80-byte buffer
laid out under repr(C) with no padding, 90 bytes in total. -/
def PACKET_SIZE : Nat := 90

/-- TryFrom of a byte slice for Packet (packet.rs lines 126-135): the length
must equal size_of::<Packet>() = 90, and bincode deserialization then reads
the fields back in declaration order; on a 90-byte buffer it cannot fail,
since every field pattern accepts arbitrary bytes. -/
def Packet.tryFromBytes (data : List Nat) : Option Packet :=
  if data.length = PACKET_SIZE then
    some
      { status := data.getD 0 0
        id := data.getD 1 0
        remaining_packets := data.getD 2 0 + 256 * data.getD 3 0
        protocol_type := data.getD 4 0
        data_size := data.getD 5 0
        command_class := data.getD 6 0
        command_id := data.getD 7 0
        args := (data.drop 8).take 80
        crc := data.getD 88 0
        reserved := data.getD 89 0 }
  else none

/-- PerfMode (src/librazer/src/types.rs): Balanced = 0, Silent = 5,
Custom = 4. -/
inductive PerfMode where
  | Balanced
  | Silent
  | Custom
deriving Repr, DecidableEq

/-- numeric wire encoding of PerfMode (perf_mode as u8). -/
def PerfMode.toWire : PerfMode → Nat
  | .Balanced => 0
  | .Silent => 5
  | .Custom => 4

/-- TryFrom of u8 for PerfMode (types.rs). -/
def PerfMode.tryFrom : Nat → Option PerfMode
  | 0 => some .Balanced
  | 5 => some .Silent
  | 4 => some .Custom
  | _ => none

/-- FanMode (types.rs): Auto = 0, Manual = 1. -/
inductive FanMode where
  | Auto
  | Manual
deriving Repr, DecidableEq

/-- numeric wire encoding of FanMode. -/
def FanMode.toWire : FanMode → Nat
  | .Auto => 0
  | .Manual => 1

/-- TryFrom of u8 for FanMode (types.rs). -/
def FanMode.tryFrom : Nat → Option FanMode
  | 0 => some .Auto
  | 1 => some .Manual
  | _ => none

/-- CpuBoost (types.rs): Low = 0, Medium = 1, High = 2, Boost = 3,
Overclock = 4. -/
inductive CpuBoost where
  | Low
  | Medium
  | High
  | Boost
  | Overclock
deriving Repr, DecidableEq

/-- TryFrom of u8 for CpuBoost (types.rs). -/
def CpuBoost.tryFrom : Nat → Option CpuBoost
  | 0 => some .Low
  | 1 => some .Medium
  | 2 => some .High
  | 3 => some .Boost
  | 4 => some .Overclock
  | _ => none

/-- GpuBoost (types.rs): Low = 0, Medium = 1, High = 2. -/
inductive GpuBoost where
  | Low
  | Medium
  | High
deriving Repr, DecidableEq

/-- TryFrom of u8 for GpuBoost (types.rs). -/
def GpuBoost.tryFrom : Nat → Option GpuBoost
  | 0 => some .Low
  | 1 => some .Medium
  | 2 => some .High
  | _ => none

/-- MaxFanSpeedMode (types.rs): Enable = 2, Disable = 0. -/
inductive MaxFanSpeedMode where
  | Enable
  | Disable
deriving Repr, DecidableEq

/-- numeric wire encoding of MaxFanSpeedMode (mode as u8). -/
def MaxFanSpeedMode.toWire : MaxFanSpeedMode → Nat
  | .Enable => 2
  | .Disable => 0

/-- FanZone (types.rs): Zone1 = 1, Zone2 = 2; toWire is zone as u8. -/
inductive FanZone where
  | Zone1
  | Zone2
deriving Repr, DecidableEq

/-- numeric wire encoding of FanZone. -/
def FanZone.toWire : FanZone → Nat
  | .Zone1 => 1
  | .Zone2 => 2

/-- Cluster (types.rs): Cpu = 1, Gpu = 2; toWire is cluster as u8. -/
inductive Cluster where
  | Cpu
  | Gpu
deriving Repr, DecidableEq

/-- numeric wire encoding of Cluster. -/
def Cluster.toWire : Cluster → Nat
  | .Cpu => 1
  | .Gpu => 2

/-- mocked transport (spec section 6): one feature-report exchange per call,
modelled as a pure function from the decoded request packet to the decoded
response packet. The byte-level codec is covered separately by the round-trip
and size theorems. -/
abbrev Transport := Packet → Packet

/-- explicit state threaded through the command layer: the stream of random
u8 ids that thread_rng produces (the n-th constructed packet gets ids n), the
count of ids consumed so far, and the list of request frames handed to the
transport, in order. -/
structure SimState where
  ids : Nat → Nat
  next : Nat
  sent : List Packet

/-- draw the next random id from the stream. -/
def SimState.fresh (st : SimState) : Nat × SimState :=
  (st.ids st.next, { st with next := st.next + 1 })

/-- record a request frame as exchanged with the transport. -/
def SimState.push (st : SimState) (p : Packet) : SimState :=
  { st with sent := st.sent ++ [p] }

/-- command-layer failures: validation errors propagated from
Packet::ensure_matches_report, the echo check of _send_command, the
discriminant-byte check of the read-only getters, the fan-rpm range check,
an enum byte the TryFrom conversions reject, the two-zones disagreement of
get_perf_mode, and a mode precondition that does not hold. -/
inductive CmdError where
  | validation (e : ValidateError)
  | echoMismatch
  | discriminantMismatch
  | rpmOutOfRange
  | invalidEnumByte (v : Nat)
  | modesDoNotMatch
  | precondition
deriving Repr, DecidableEq

/-- Device::send (src/librazer/src/device.rs lines 51-77) over the mocked
transport: the request frame goes out, the response comes back and is checked
with ensure_matches_report. Transport-level failures and the wire size check
do not arise for the mocked transport, which always answers with one decoded
packet. -/
def Device.send (dev : Transport) (st : SimState) (report : Packet) :
    SimState × Except CmdError Packet :=
  (st.push report,
    match (dev report).ensure_matches_report report with
    | .error e => .error (.validation e)
    | .ok p => .ok p)

/-- _send_command (command.rs lines 10-14): send the command packet and
require that the response args echo the request args as a leading slice. -/
def sendCommand (dev : Transport) (st : SimState) (command : Nat) (args : List Nat) :
    SimState × Except CmdError Packet :=
  let (id, st1) := st.fresh
  let (st2, r) := Device.send dev st1 (Packet.new command id args)
  (st2,
    match r with
    | .error e => .error e
    | .ok resp =>
      if args.isPrefixOf resp.args then .ok resp else .error .echoMismatch)

/-- per-zone closure of get_perf_mode (command.rs lines 56-62): query command
0x0d82 with args [0, zone, 0, 0] and decode the reply bytes at indexes 2 and 3
into a PerfMode and a FanMode. -/
def queryZoneMode (dev : Transport) (st : SimState) (zone : Nat) :
    SimState × Except CmdError (PerfMode × FanMode) :=
  let (id, st1) := st.fresh
  let (st2, r) := Device.send dev st1 (Packet.new 0x0d82 id [0, zone, 0, 0])
  (st2,
    match r with
    | .error e => .error e
    | .ok resp =>
      match PerfMode.tryFrom (resp.args.getD 2 0) with
      | none => .error (.invalidEnumByte (resp.args.getD 2 0))
      | some pm =>
        match FanMode.tryFrom (resp.args.getD 3 0) with
        | none => .error (.invalidEnumByte (resp.args.getD 3 0))
        | some fm => .ok (pm, fm))

/-- get_perf_mode (src/librazer/src/command.rs lines 55-78, and
src/src/razer/command.rs lines 54-67): query both zones - both frames go out
regardless of the first result - then fail if either query failed, and
otherwise require both decoded pairs to be identical. The two source files
differ only in how the error value of a failed zone query is rendered;
frames sent and successful results are the same. -/
def get_perf_mode (dev : Transport) (st : SimState) :
    SimState × Except CmdError (PerfMode × FanMode) :=
  let (st1, r1) := queryZoneMode dev st 1
  let (st2, r2) := queryZoneMode dev st1 2
  match r1, r2 with
  | .ok m1, .ok m2 =>
    if m1 = m2 then (st2, .ok m1) else (st2, .error .modesDoNotMatch)
  | .error e, _ => (st2, .error e)
  | .ok _, .error e => (st2, .error e)

/-- set_fan_rpm (src/librazer/src/command.rs lines 96-109): the rpm range
check comes first, then the (Balanced, Manual) precondition read fresh from
the device, then one 0x0d01 write per fan zone with wire byte
(rpm / 100) as u8, stopping at the first failing write. -/
def set_fan_rpm (dev : Transport) (st : SimState) (rpm : Nat) :
    SimState × Except CmdError Unit :=
  if 2000 ≤ rpm ∧ rpm ≤ 5000 then
    let (st1, r) := get_perf_mode dev st
    match r with
    | .error e => (st1, .error e)
    | .ok m =>
      if m = (PerfMode.Balanced, FanMode.Manual) then
        let (st2, r1) := sendCommand dev st1 0x0d01 [0, FanZone.Zone1.toWire, rpm / 100 % 256]
        match r1 with
        | .error e => (st2, .error e)
        | .ok _ =>
          let (st3, r2) := sendCommand dev st2 0x0d01 [0, FanZone.Zone2.toWire, rpm / 100 % 256]
          match r2 with
          | .error e => (st3, .error e)
          | .ok _ => (st3, .ok ())
      else (st1, .error .precondition)
  else (st, .error .rpmOutOfRange)

/-- _get_boost (command.rs lines 45-49): query 0x0d87 with
args [0, cluster, 0], require the reply byte at index 1 to echo the cluster
discriminant, and return the raw boost byte at index 2. -/
def getBoostRaw (dev : Transport) (st : SimState) (cluster : Cluster) :
    SimState × Except CmdError Nat :=
  let (id, st1) := st.fresh
  let (st2, r) := Device.send dev st1 (Packet.new 0x0d87 id [0, cluster.toWire, 0])
  (st2,
    match r with
    | .error e => .error e
    | .ok resp =>
      if resp.args.getD 1 0 = cluster.toWire then .ok (resp.args.getD 2 0)
      else .error .discriminantMismatch)

/-- get_cpu_boost (command.rs): decode the raw boost byte of the Cpu cluster
as a CpuBoost. -/
def get_cpu_boost (dev : Transport) (st : SimState) :
    SimState × Except CmdError CpuBoost :=
  let (st1, r) := getBoostRaw dev st Cluster.Cpu
  (st1,
    match r with
    | .error e => .error e
    | .ok v =>
      match CpuBoost.tryFrom v with
      | some b => .ok b
      | none => .error (.invalidEnumByte v))

/-- get_gpu_boost (command.rs): decode the raw boost byte of the Gpu cluster
as a GpuBoost. -/
def get_gpu_boost (dev : Transport) (st : SimState) :
    SimState × Except CmdError GpuBoost :=
  let (st1, r) := getBoostRaw dev st Cluster.Gpu
  (st1,
    match r with
    | .error e => .error e
    | .ok v =>
      match GpuBoost.tryFrom v with
      | some b => .ok b
      | none => .error (.invalidEnumByte v))

/-- set_max_fan_speed_mode from src/src/razer/command.rs (lines 106-123), the
protocol revision that validates boost state: the performance mode read fresh
from the device must be Custom, the cpu boost read next must be Boost or
Overclock, the gpu boost read next must be High, and only then does the
0x070f write with args [mode as u8] go out through _send_command. The
src/librazer/src/command.rs revision (lines 117-124) keeps only the Custom
check. -/
def set_max_fan_speed_mode (dev : Transport) (st : SimState) (mode : MaxFanSpeedMode) :
    SimState × Except CmdError Unit :=
  let (st1, rp) := get_perf_mode dev st
  match rp with
  | .error e => (st1, .error e)
  | .ok m =>
    if m.1 = PerfMode.Custom then
      let (st2, rc) := get_cpu_boost dev st1
      match rc with
      | .error e => (st2, .error e)
      | .ok cb =>
        if cb = CpuBoost.Boost ∨ cb = CpuBoost.Overclock then
          let (st3, rg) := get_gpu_boost dev st2
          match rg with
          | .error e => (st3, .error e)
          | .ok gb =>
            if gb = GpuBoost.High then
              let (st4, rw) := sendCommand dev st3 0x070f [mode.toWire]
              match rw with
              | .error e => (st4, .error e)
              | .ok _ => (st4, .ok ())
            else (st3, .error .precondition)
        else (st2, .error .precondition)
    else (st1, .error .precondition)

/-- recognizer for the fan-rpm write frames (command 0x0d01). -/
def isFanWrite (p : Packet) : Bool :=
  p.command_class == 0x0d && p.command_id == 0x01

/-- recognizer for the max-fan-speed write frame (command 0x070f). -/
def isMaxFanWrite (p : Packet) : Bool :=
  p.command_class == 0x07 && p.command_id == 0x0f

/-- test-double transport for concrete runs: echoes every request with status
Successful; zone mode queries (0x0d82) get the per-zone mode bytes written
into reply indexes 2 and 3, and boost queries (0x0d87) get the per-cluster
boost byte written into reply index 2, mirroring the reply layout the command
layer reads. -/
def mockDevice (pm1 fm1 pm2 fm2 cpu gpu : Nat) : Transport := fun req =>
  if req.command_class = 0x0d ∧ req.command_id = 0x82 then
    if req.args.getD 1 0 = 1 then
      { req with status := CommandStatus.Successful, args := (req.args.set 2 pm1).set 3 fm1 }
    else
      { req with status := CommandStatus.Successful, args := (req.args.set 2 pm2).set 3 fm2 }
  else if req.command_class = 0x0d ∧ req.command_id = 0x87 then
    { req with
      status := CommandStatus.Successful
      args := req.args.set 2 (if req.args.getD 1 0 = 1 then cpu else gpu) }
  else
    { req with status := CommandStatus.Successful }

/-- initial simulation state for concrete runs: id stream n + 10, nothing
sent yet. -/
def st0 : SimState :=
  { ids := fun n => n + 10, next := 0, sent := [] }

/-- helper: a remaining_packets difference alone falsifies the correlation
tuple of ensure_matches_report. -/
theorem emr_tuple_ne_of_rp {self report : Packet}
    (h : self.remaining_packets ≠ report.remaining_packets) :
    (report.remaining_packets, report.command_class, report.command_id, report.id) ≠
      (self.remaining_packets, self.command_class, self.command_id, self.id) := by
  intro hc
  exact h (congrArg Prod.fst hc).symm

/-- helper: with all four correlation fields equal, ensure_matches_report
reduces to the three-way status discrimination. -/
theorem emr_of_fields_eq {self report : Packet}
    (hrp : report.remaining_packets = self.remaining_packets)
    (hcc : report.command_class = self.command_class)
    (hci : report.command_id = self.command_id)
    (hid : report.id = self.id) :
    self.ensure_matches_report report =
      (if self.status = CommandStatus.NotSupported then .error .notSupported
       else if self.status ≠ CommandStatus.Successful then
         .error (.unknownStatus self.status)
       else .ok self) := by
  unfold Packet.ensure_matches_report
  rw [if_neg]
  simp [hrp, hcc, hci, hid]

/-- C1 counterexample: for the battery-care query command 0x0792, a response
that differs from the request only in remaining_packets (and carries the
Successful status) is rejected as a correlation mismatch; the carve-out the
claim describes does not exist in Packet::ensure_matches_report. -/
theorem battery_care_remaining_packets_rejected :
    Packet.ensure_matches_report
        { Packet.new 0x0792 7 [0] with remaining_packets := 1, status := 2 }
        (Packet.new 0x0792 7 [0]) = .error .responseMismatch := by
  rfl

/-- C1 (amended): remaining_packets must match between response and request
for every command - including the battery-care and max-fan-speed queries,
which have no carve-out - and any mismatch is rejected as a correlation
error. -/
theorem ensure_matches_report_remaining_packets (self report : Packet)
    (h : self.remaining_packets ≠ report.remaining_packets) :
    self.ensure_matches_report report = .error .responseMismatch := by
  unfold Packet.ensure_matches_report
  rw [if_pos (emr_tuple_ne_of_rp h)]

/-- C1 witness: the max-fan-speed write command 0x070f with a
remaining_packets mismatch is likewise rejected. -/
theorem ensure_matches_report_remaining_packets_witness :
    Packet.ensure_matches_report
        { Packet.new 0x070f 9 [2] with remaining_packets := 3, status := 2 }
        (Packet.new 0x070f 9 [2]) = .error .responseMismatch :=
  ensure_matches_report_remaining_packets _ _ (by decide)

/-- C2: a response whose id, command_class or command_id differs from the
request is rejected as a correlation mismatch; any single differing field
suffices. -/
theorem ensure_matches_report_correlation (self report : Packet)
    (h : self.id ≠ report.id ∨ self.command_class ≠ report.command_class ∨
      self.command_id ≠ report.command_id) :
    self.ensure_matches_report report = .error .responseMismatch := by
  unfold Packet.ensure_matches_report
  rw [if_pos]
  intro hc
  rcases h with h | h | h
  · exact h (congrArg (fun t => t.2.2.2) hc).symm
  · exact h (congrArg (fun t => t.2.1) hc).symm
  · exact h (congrArg (fun t => t.2.2.1) hc).symm

/-- C2 witness: three concrete rejections, one per differing field. -/
theorem ensure_matches_report_correlation_witness :
    Packet.ensure_matches_report { Packet.new 0x0d01 4 [0] with status := 2, id := 5 }
        (Packet.new 0x0d01 4 [0]) = .error .responseMismatch ∧
    Packet.ensure_matches_report { Packet.new 0x0d01 4 [0] with status := 2, command_class := 3 }
        (Packet.new 0x0d01 4 [0]) = .error .responseMismatch ∧
    Packet.ensure_matches_report { Packet.new 0x0d01 4 [0] with status := 2, command_id := 3 }
        (Packet.new 0x0d01 4 [0]) = .error .responseMismatch :=
  ⟨ensure_matches_report_correlation _ _ (Or.inl (by decide)),
   ensure_matches_report_correlation _ _ (Or.inr (Or.inl (by decide))),
   ensure_matches_report_correlation _ _ (Or.inr (Or.inr (by decide)))⟩

/-- C3: with the correlation fields matching, validation succeeds exactly for
status Successful (0x02), fails distinguishably as not-supported for status
NotSupported (0x05), and fails with a generic error carrying the raw status
byte for every other value. -/
theorem ensure_matches_report_status_trichotomy (self report : Packet)
    (hrp : report.remaining_packets = self.remaining_packets)
    (hcc : report.command_class = self.command_class)
    (hci : report.command_id = self.command_id)
    (hid : report.id = self.id) :
    (self.ensure_matches_report report = .ok self ↔
      self.status = CommandStatus.Successful) ∧
    (self.status = CommandStatus.NotSupported →
      self.ensure_matches_report report = .error .notSupported) ∧
    (self.status ≠ CommandStatus.Successful →
      self.status ≠ CommandStatus.NotSupported →
      self.ensure_matches_report report = .error (.unknownStatus self.status)) := by
  rw [emr_of_fields_eq hrp hcc hci hid]
  by_cases h5 : self.status = CommandStatus.NotSupported
  · rw [if_pos h5]
    have h2 : self.status ≠ CommandStatus.Successful := by
      rw [h5]; decide
    exact ⟨by simp [h2], fun _ => rfl, fun _ hn => absurd h5 hn⟩
  · rw [if_neg h5]
    by_cases h2 : self.status = CommandStatus.Successful
    · rw [if_neg (by simp [h2])]
      exact ⟨by simp [h2], fun hx => absurd (h2.symm.trans hx) (by decide),
        fun hn _ => absurd h2 hn⟩
    · rw [if_pos h2]
      exact ⟨⟨fun hx => absurd hx (by simp), fun hx => absurd hx h2⟩,
        fun hx => absurd hx h5, fun _ _ => rfl⟩

/-- C3 witness: the three outcomes at concrete status bytes 0x02, 0x05 and
0xaa on an otherwise matching request/response pair. -/
theorem ensure_matches_report_status_trichotomy_witness :
    Packet.ensure_matches_report { Packet.new 0x0004 3 [0, 0] with status := 2 }
        (Packet.new 0x0004 3 [0, 0]) = .ok { Packet.new 0x0004 3 [0, 0] with status := 2 } ∧
    Packet.ensure_matches_report { Packet.new 0x0004 3 [0, 0] with status := 5 }
        (Packet.new 0x0004 3 [0, 0]) = .error .notSupported ∧
    Packet.ensure_matches_report { Packet.new 0x0004 3 [0, 0] with status := 0xaa }
        (Packet.new 0x0004 3 [0, 0]) = .error (.unknownStatus 0xaa) :=
  ⟨(ensure_matches_report_status_trichotomy
      { Packet.new 0x0004 3 [0, 0] with status := 2 } (Packet.new 0x0004 3 [0, 0])
      rfl rfl rfl rfl).1.mpr rfl,
   (ensure_matches_report_status_trichotomy
      { Packet.new 0x0004 3 [0, 0] with status := 5 } (Packet.new 0x0004 3 [0, 0])
      rfl rfl rfl rfl).2.1 rfl,
   (ensure_matches_report_status_trichotomy
      { Packet.new 0x0004 3 [0, 0] with status := 0xaa } (Packet.new 0x0004 3 [0, 0])
      rfl rfl rfl rfl).2.2 (by decide) (by decide)⟩

/-- C5: decoding a byte buffer into a packet succeeds exactly when the buffer
length equals the fixed frame size PACKET_SIZE = size_of of Packet = 90; no
content validation happens at decode time. -/
theorem tryFromBytes_size_only (data : List Nat) :
    (Packet.tryFromBytes data).isSome ↔ data.length = PACKET_SIZE := by
  unfold Packet.tryFromBytes
  split <;> simp_all

/-- C10: Packet::new is total exactly on argument slices of length at most
80: there it returns the packet with status New = 0, remaining_packets 0,
crc 0, data_size the argument length, and the arguments zero-padded to the
80-byte buffer; on longer slices the copy panics, modelled by none. -/
theorem packet_new_total_iff (command id : Nat) (args : List Nat) :
    (args.length ≤ 80 →
      Packet.new? command id args = some (Packet.new command id args) ∧
      (Packet.new command id args).status = 0 ∧
      (Packet.new command id args).remaining_packets = 0 ∧
      (Packet.new command id args).crc = 0 ∧
      (Packet.new command id args).data_size = args.length ∧
      (Packet.new command id args).args =
        args ++ List.replicate (80 - args.length) 0 ∧
      (Packet.new command id args).args.length = 80) ∧
    (80 < args.length → Packet.new? command id args = none) := by
  constructor
  · intro h
    refine ⟨?_, rfl, rfl, rfl, ?_, rfl, ?_⟩
    · simp [Packet.new?, copyArgsBuffer, h, Packet.new]
    · show args.length % 256 = args.length
      omega
    · show (args ++ List.replicate (80 - args.length) 0).length = 80
      simp
      omega
  · intro h
    simp [Packet.new?, copyArgsBuffer]
    omega

/-- C10 witness: a 3-byte argument list yields the padded packet, and an
81-byte argument list hits the panic case. -/
theorem packet_new_total_iff_witness :
    (Packet.new? 0x0d01 9 [1, 2, 3] = some (Packet.new 0x0d01 9 [1, 2, 3]) ∧
      (Packet.new 0x0d01 9 [1, 2, 3]).data_size = 3) ∧
    Packet.new? 0 0 (List.replicate 81 0) = none :=
  ⟨⟨((packet_new_total_iff 0x0d01 9 [1, 2, 3]).1 (by decide)).1,
    ((packet_new_total_iff 0x0d01 9 [1, 2, 3]).1 (by decide)).2.2.2.2.1⟩,
   (packet_new_total_iff 0 0 (List.replicate 81 0)).2 (by decide)⟩

/-- helper: decoding a 90-byte buffer presented in the wire layout recovers
each field from its position. -/
theorem tryFromBytes_layout (b0 b1 b2 b3 b4 b5 b6 b7 c r : Nat) (buf : List Nat)
    (h : buf.length = 80) :
    Packet.tryFromBytes ([b0, b1, b2, b3, b4, b5, b6, b7] ++ buf ++ [c, r]) =
      some
        { status := b0, id := b1, remaining_packets := b2 + 256 * b3,
          protocol_type := b4, data_size := b5, command_class := b6,
          command_id := b7, args := buf, crc := c, reserved := r } := by
  have hlen : ([b0, b1, b2, b3, b4, b5, b6, b7] ++ buf ++ [c, r]).length = PACKET_SIZE := by
    simp [PACKET_SIZE, h]
  have hget : ∀ i, i < 8 →
      (([b0, b1, b2, b3, b4, b5, b6, b7] ++ buf) ++ [c, r]).getD i 0 =
        [b0, b1, b2, b3, b4, b5, b6, b7].getD i 0 := by
    intro i hi
    rw [List.getD_append _ _ _ _ (by simp; omega), List.getD_append _ _ _ _ (by simp; omega)]
  have hlen88 : ([b0, b1, b2, b3, b4, b5, b6, b7] ++ buf).length = 88 := by simp [h]
  unfold Packet.tryFromBytes
  rw [if_pos hlen]
  congr 1
  simp only [Packet.mk.injEq]
  refine ⟨?_, ?_, ?_, ?_, ?_, ?_, ?_, ?_, ?_, ?_⟩
  · rw [hget 0 (by omega)]; rfl
  · rw [hget 1 (by omega)]; rfl
  · rw [hget 2 (by omega), hget 3 (by omega)]; rfl
  · rw [hget 4 (by omega)]; rfl
  · rw [hget 5 (by omega)]; rfl
  · rw [hget 6 (by omega)]; rfl
  · rw [hget 7 (by omega)]; rfl
  · have hd : ([b0, b1, b2, b3, b4, b5, b6, b7] ++ buf ++ [c, r]).drop 8 = buf ++ [c, r] := by
      rw [List.append_assoc]
      exact List.drop_left [b0, b1, b2, b3, b4, b5, b6, b7] (buf ++ [c, r])
    rw [hd, ← h, List.take_left]
  · rw [List.getD_append_right _ _ _ _ (by omega)]
    simp [h]
  · rw [List.getD_append_right _ _ _ _ (by omega)]
    simp [h]

/-- C4: for every 16-bit command and argument list within the 80-byte
capacity, decoding the serialized bytes of the freshly built packet yields a
packet with the same command_class, command_id, data_size and full
zero-padded 80-byte argument buffer (here: the identical packet). -/
theorem packet_roundtrip (command id : Nat) (args : List Nat)
    (h : args.length ≤ 80) :
    ∃ p q, Packet.new? command id args = some p ∧
      Packet.tryFromBytes p.toBytes = some q ∧
      q.command_class = p.command_class ∧ q.command_id = p.command_id ∧
      q.data_size = p.data_size ∧ q.args = p.args ∧ q.args.length = 80 := by
  refine ⟨Packet.new command id args, Packet.new command id args, ?_, ?_, rfl, rfl, rfl, rfl, ?_⟩
  · simp [Packet.new?, copyArgsBuffer, h, Packet.new]
  · have hbuf : (args ++ List.replicate (80 - args.length) 0).length = 80 := by
      simp
      omega
    have hlay := tryFromBytes_layout CommandStatus.New id 0 0 0 (args.length % 256)
      (command / 256 % 256) (command % 256) 0 0 _ hbuf
    have hshape : (Packet.new command id args).toBytes =
        [CommandStatus.New, id, 0, 0, 0, args.length % 256, command / 256 % 256,
          command % 256] ++ (args ++ List.replicate (80 - args.length) 0) ++ [0, 0] := by
      simp [Packet.toBytes, Packet.new]
    rw [hshape, hlay]
    simp [Packet.new]
  · show (args ++ List.replicate (80 - args.length) 0).length = 80
    simp
    omega

/-- C4 witness: a concrete three-byte command round-trips through the codec. -/
theorem packet_roundtrip_witness :
    ∃ p q, Packet.new? 0x0d01 9 [1, 2, 3] = some p ∧
      Packet.tryFromBytes p.toBytes = some q ∧
      q.command_class = p.command_class ∧ q.command_id = p.command_id ∧
      q.data_size = p.data_size ∧ q.args = p.args ∧ q.args.length = 80 :=
  packet_roundtrip 0x0d01 9 [1, 2, 3] (by decide)

/-- helper: Device.send records exactly the request frame. -/
theorem Device.send_fst (dev : Transport) (st : SimState) (report : Packet) :
    (Device.send dev st report).1 = st.push report := rfl

/-- helper: sendCommand records exactly one frame, the freshly built command
packet. -/
theorem sendCommand_fst (dev : Transport) (st : SimState) (command : Nat) (args : List Nat) :
    (sendCommand dev st command args).1 =
      { st with
        next := st.next + 1
        sent := st.sent ++ [Packet.new command (st.ids st.next) args] } := rfl

/-- helper: a zone mode query records exactly one 0x0d82 frame. -/
theorem queryZoneMode_fst (dev : Transport) (st : SimState) (zone : Nat) :
    (queryZoneMode dev st zone).1 =
      { st with
        next := st.next + 1
        sent := st.sent ++ [Packet.new 0x0d82 (st.ids st.next) [0, zone, 0, 0]] } := rfl

/-- helper: a boost query records exactly one 0x0d87 frame. -/
theorem getBoostRaw_fst (dev : Transport) (st : SimState) (cluster : Cluster) :
    (getBoostRaw dev st cluster).1 =
      { st with
        next := st.next + 1
        sent := st.sent ++ [Packet.new 0x0d87 (st.ids st.next) [0, cluster.toWire, 0]] } := rfl

/-- helper: get_cpu_boost records exactly one 0x0d87 frame for the Cpu
cluster. -/
theorem get_cpu_boost_fst (dev : Transport) (st : SimState) :
    (get_cpu_boost dev st).1 =
      { st with
        next := st.next + 1
        sent := st.sent ++ [Packet.new 0x0d87 (st.ids st.next) [0, Cluster.Cpu.toWire, 0]] } := rfl

/-- helper: get_gpu_boost records exactly one 0x0d87 frame for the Gpu
cluster. -/
theorem get_gpu_boost_fst (dev : Transport) (st : SimState) :
    (get_gpu_boost dev st).1 =
      { st with
        next := st.next + 1
        sent := st.sent ++ [Packet.new 0x0d87 (st.ids st.next) [0, Cluster.Gpu.toWire, 0]] } := rfl

/-- helper: get_perf_mode always records exactly the two zone query frames,
whatever the outcome. -/
theorem get_perf_mode_fst (dev : Transport) (st : SimState) :
    (get_perf_mode dev st).1 =
      { st with
        next := st.next + 2
        sent := st.sent ++ [Packet.new 0x0d82 (st.ids st.next) [0, 1, 0, 0],
          Packet.new 0x0d82 (st.ids (st.next + 1)) [0, 2, 0, 0]] } := by
  unfold get_perf_mode
  rcases hq1 : queryZoneMode dev st 1 with ⟨s1, r1⟩
  have e1 : s1 = { st with
      next := st.next + 1
      sent := st.sent ++ [Packet.new 0x0d82 (st.ids st.next) [0, 1, 0, 0]] } := by
    have h1 := queryZoneMode_fst dev st 1
    rw [hq1] at h1
    exact h1
  rcases hq2 : queryZoneMode dev s1 2 with ⟨s2, r2⟩
  have e2 : s2 = { st with
      next := st.next + 2
      sent := st.sent ++ [Packet.new 0x0d82 (st.ids st.next) [0, 1, 0, 0],
        Packet.new 0x0d82 (st.ids (st.next + 1)) [0, 2, 0, 0]] } := by
    have h2 := queryZoneMode_fst dev s1 2
    rw [hq2] at h2
    rw [e1] at h2
    simpa [List.append_assoc, Nat.add_assoc] using h2
  simp only [hq1, hq2]
  rcases r1 with e | m1 <;> rcases r2 with f | m2 <;> simp [e2]
  split <;> simp [e2]

/-- C6: get_perf_mode returns a (performance-mode, fan-mode) pair only when
the decoded pairs of zone 1 and zone 2 are identical, and whenever the two
zones decode to different pairs it fails with the modes-do-not-match error
rather than picking the value of one zone. -/
theorem get_perf_mode_requires_agreement (dev : Transport) (st : SimState) :
    (∀ m, (get_perf_mode dev st).2 = .ok m →
      (queryZoneMode dev st 1).2 = .ok m ∧
      (queryZoneMode dev (queryZoneMode dev st 1).1 2).2 = .ok m) ∧
    (∀ m1 m2, (queryZoneMode dev st 1).2 = .ok m1 →
      (queryZoneMode dev (queryZoneMode dev st 1).1 2).2 = .ok m2 → m1 ≠ m2 →
      (get_perf_mode dev st).2 = .error .modesDoNotMatch) := by
  rcases hq1 : queryZoneMode dev st 1 with ⟨s1, r1⟩
  rcases hq2 : queryZoneMode dev s1 2 with ⟨s2, r2⟩
  have hfst : (queryZoneMode dev st 1).1 = s1 := by rw [hq1]
  simp only [get_perf_mode, hq1, hfst, hq2]
  constructor
  · intro m hm
    rcases r1 with e | m1
    · simp at hm
    · rcases r2 with f | m2
      · simp at hm
      · by_cases h12 : m1 = m2
        · simp [h12] at hm
          simp_all
        · simp [h12] at hm
  · intro m1 m2 h1 h2 hne
    have h1x : r1 = .ok m1 := h1
    have h2x : r2 = .ok m2 := h2
    subst h1x
    subst h2x
    simp [hne]

/-- C6 witness: with a mocked transport answering Balanced for zone 1 and
Custom for zone 2, get_perf_mode fails with the modes-do-not-match error. -/
theorem get_perf_mode_requires_agreement_witness :
    (get_perf_mode (mockDevice 0 0 4 0 0 0) st0).2 = .error .modesDoNotMatch :=
  (get_perf_mode_requires_agreement (mockDevice 0 0 4 0 0 0) st0).2
    (PerfMode.Balanced, FanMode.Auto) (PerfMode.Custom, FanMode.Auto)
    (by rfl) (by rfl) (by decide)

/-- helper: whenever set_fan_rpm succeeds, the frames recorded are exactly the
two zone mode queries followed by the two 0x0d01 zone writes carrying the
truncated wire byte. -/
theorem set_fan_rpm_ok_sent (dev : Transport) (st : SimState) (rpm : Nat)
    (hr : 2000 ≤ rpm ∧ rpm ≤ 5000)
    (hok : (set_fan_rpm dev st rpm).2 = .ok ()) :
    (set_fan_rpm dev st rpm).1.sent = st.sent ++
      [Packet.new 0x0d82 (st.ids st.next) [0, 1, 0, 0],
       Packet.new 0x0d82 (st.ids (st.next + 1)) [0, 2, 0, 0],
       Packet.new 0x0d01 (st.ids (st.next + 2)) [0, 1, rpm / 100 % 256],
       Packet.new 0x0d01 (st.ids (st.next + 3)) [0, 2, rpm / 100 % 256]] := by
  unfold set_fan_rpm at hok ⊢
  rw [if_pos hr] at hok ⊢
  rcases hg : get_perf_mode dev st with ⟨s1, r⟩
  have e1 : s1 = { st with
      next := st.next + 2
      sent := st.sent ++ [Packet.new 0x0d82 (st.ids st.next) [0, 1, 0, 0],
        Packet.new 0x0d82 (st.ids (st.next + 1)) [0, 2, 0, 0]] } := by
    have hx := get_perf_mode_fst dev st
    rw [hg] at hx
    exact hx
  simp only [hg] at hok ⊢
  rcases r with e | m
  · simp at hok
  · simp only [] at hok ⊢
    by_cases hm : m = (PerfMode.Balanced, FanMode.Manual)
    · rw [if_pos hm] at hok ⊢
      rcases hw1 : sendCommand dev s1 0x0d01 [0, FanZone.Zone1.toWire, rpm / 100 % 256]
        with ⟨t2, w1⟩
      have e2 : t2 = { s1 with
          next := s1.next + 1
          sent := s1.sent ++
            [Packet.new 0x0d01 (s1.ids s1.next) [0, FanZone.Zone1.toWire, rpm / 100 % 256]] } := by
        have hx := sendCommand_fst dev s1 0x0d01 [0, FanZone.Zone1.toWire, rpm / 100 % 256]
        rw [hw1] at hx
        exact hx
      simp only [hw1] at hok ⊢
      rcases w1 with e | p1
      · simp at hok
      · simp only [] at hok ⊢
        rcases hw2 : sendCommand dev t2 0x0d01 [0, FanZone.Zone2.toWire, rpm / 100 % 256]
          with ⟨t3, w2⟩
        have e3 : t3 = { t2 with
            next := t2.next + 1
            sent := t2.sent ++
              [Packet.new 0x0d01 (t2.ids t2.next) [0, FanZone.Zone2.toWire, rpm / 100 % 256]] } := by
          have hx := sendCommand_fst dev t2 0x0d01 [0, FanZone.Zone2.toWire, rpm / 100 % 256]
          rw [hw2] at hx
          exact hx
        simp only [hw2] at hok ⊢
        rcases w2 with e | p2
        · simp at hok
        · simp only [] at hok ⊢
          rw [e3, e2, e1]
          simp [List.append_assoc, Nat.add_assoc, FanZone.toWire]
    · rw [if_neg hm] at hok
      simp at hok

/-- C7: set_fan_rpm rejects every rpm outside [2000, 5000] before any frame
is exchanged (the state comes back untouched), and on success the wire byte
written to each of the two fan zones is rpm / 100 with integer truncation. -/
theorem set_fan_rpm_range_and_truncation (dev : Transport) (st : SimState) (rpm : Nat) :
    (rpm < 2000 ∨ 5000 < rpm →
      set_fan_rpm dev st rpm = (st, .error .rpmOutOfRange)) ∧
    (2000 ≤ rpm → rpm ≤ 5000 → (set_fan_rpm dev st rpm).2 = .ok () →
      (set_fan_rpm dev st rpm).1.sent = st.sent ++
        [Packet.new 0x0d82 (st.ids st.next) [0, 1, 0, 0],
         Packet.new 0x0d82 (st.ids (st.next + 1)) [0, 2, 0, 0],
         Packet.new 0x0d01 (st.ids (st.next + 2)) [0, 1, rpm / 100],
         Packet.new 0x0d01 (st.ids (st.next + 3)) [0, 2, rpm / 100]]) := by
  constructor
  · intro h
    unfold set_fan_rpm
    rw [if_neg (by omega)]
  · intro hlo hhi hok
    have hmod : rpm / 100 % 256 = rpm / 100 := by omega
    have hs := set_fan_rpm_ok_sent dev st rpm ⟨hlo, hhi⟩ hok
    rw [hs]
    simp only [hmod]

/-- C7 witness: rpm 1000 is rejected with the state untouched, and rpm 2050
is written to both zones as wire byte 20 = 2050 / 100. -/
theorem set_fan_rpm_range_and_truncation_witness :
    set_fan_rpm (mockDevice 0 1 0 1 0 0) st0 1000 = (st0, .error .rpmOutOfRange) ∧
    (set_fan_rpm (mockDevice 0 1 0 1 0 0) st0 2050).1.sent =
      [Packet.new 0x0d82 10 [0, 1, 0, 0], Packet.new 0x0d82 11 [0, 2, 0, 0],
       Packet.new 0x0d01 12 [0, 1, 20], Packet.new 0x0d01 13 [0, 2, 20]] := by
  constructor
  · exact (set_fan_rpm_range_and_truncation (mockDevice 0 1 0 1 0 0) st0 1000).1
      (Or.inl (by norm_num))
  · have h := (set_fan_rpm_range_and_truncation (mockDevice 0 1 0 1 0 0) st0 2050).2
      (by norm_num) (by norm_num) (by rfl)
    rw [h]
    rfl

/-- C8 counterexample: with a mocked device reporting (Custom, Auto) on both
zones, set_fan_rpm 3000 does fail, but frames are exchanged with the device
(the two mode queries), contradicting the claim that no I/O is performed. -/
theorem set_fan_rpm_io_counterexample :
    (set_fan_rpm (mockDevice 4 0 4 0 0 0) st0 3000).2 = .error .precondition ∧
    (set_fan_rpm (mockDevice 4 0 4 0 0 0) st0 3000).1.sent ≠ [] ∧
    (set_fan_rpm (mockDevice 4 0 4 0 0 0) st0 3000).1.sent.length = 2 := by
  refine ⟨by rfl, by decide, by rfl⟩

/-- C8 (amended): with an in-range rpm, when the device reports a mode other
than (Balanced, Manual), set_fan_rpm fails with the precondition error having
exchanged exactly the two mode-query frames and no 0x0d01 fan-write frame;
when it succeeds it has issued exactly two 0x0d01 zone write frames. -/
theorem set_fan_rpm_frame_effects (dev : Transport) (st : SimState) (rpm : Nat) :
    (2000 ≤ rpm → rpm ≤ 5000 →
      ∀ m, (get_perf_mode dev st).2 = .ok m → m ≠ (PerfMode.Balanced, FanMode.Manual) →
        (set_fan_rpm dev st rpm).2 = .error .precondition ∧
        ((set_fan_rpm dev st rpm).1.sent.drop st.sent.length).countP isFanWrite = 0 ∧
        ((set_fan_rpm dev st rpm).1.sent.drop st.sent.length).length = 2) ∧
    ((set_fan_rpm dev st rpm).2 = .ok () →
      ((set_fan_rpm dev st rpm).1.sent.drop st.sent.length).countP isFanWrite = 2) := by
  constructor
  · intro hlo hhi m hgm hm
    unfold set_fan_rpm
    rw [if_pos ⟨hlo, hhi⟩]
    rcases hg : get_perf_mode dev st with ⟨s1, r⟩
    have e1 : s1 = { st with
        next := st.next + 2
        sent := st.sent ++ [Packet.new 0x0d82 (st.ids st.next) [0, 1, 0, 0],
          Packet.new 0x0d82 (st.ids (st.next + 1)) [0, 2, 0, 0]] } := by
      have hx := get_perf_mode_fst dev st
      rw [hg] at hx
      exact hx
    have hrm : r = .ok m := by
      rw [hg] at hgm
      exact hgm
    subst hrm
    simp only [hg]
    rw [if_neg hm]
    refine ⟨rfl, ?_, ?_⟩
    · show ((s1.sent).drop st.sent.length).countP isFanWrite = 0
      rw [e1]
      simp [List.drop_left, isFanWrite, Packet.new]
    · show ((s1.sent).drop st.sent.length).length = 2
      rw [e1]
      simp [List.drop_left]
  · intro hok
    by_cases hr : 2000 ≤ rpm ∧ rpm ≤ 5000
    · have hs := set_fan_rpm_ok_sent dev st rpm hr hok
      rw [hs]
      simp [List.drop_left, isFanWrite, Packet.new]
    · unfold set_fan_rpm at hok
      rw [if_neg hr] at hok
      simp at hok

/-- C8 witness: the amended statement at concrete runs - (Custom, Auto) on
both zones gives the precondition failure with two query frames and no fan
write, and (Balanced, Manual) gives success with exactly two fan writes. -/
theorem set_fan_rpm_frame_effects_witness :
    ((set_fan_rpm (mockDevice 4 0 4 0 0 0) st0 3000).2 = .error .precondition ∧
      ((set_fan_rpm (mockDevice 4 0 4 0 0 0) st0 3000).1.sent.drop
        st0.sent.length).countP isFanWrite = 0 ∧
      ((set_fan_rpm (mockDevice 4 0 4 0 0 0) st0 3000).1.sent.drop
        st0.sent.length).length = 2) ∧
    ((set_fan_rpm (mockDevice 0 1 0 1 0 0) st0 3000).1.sent.drop
      st0.sent.length).countP isFanWrite = 2 :=
  ⟨(set_fan_rpm_frame_effects (mockDevice 4 0 4 0 0 0) st0 3000).1
      (by norm_num) (by norm_num) (PerfMode.Custom, FanMode.Auto) (by rfl) (by decide),
   (set_fan_rpm_frame_effects (mockDevice 0 1 0 1 0 0) st0 3000).2 (by rfl)⟩

/-- C9: the 0x070f max-fan-speed write frame goes out only after the
performance mode read fresh from the device came back Custom, the cpu boost
read immediately afterwards came back Boost or Overclock, and the gpu boost
read immediately before the write came back High (set_max_fan_speed_mode of
src/src/razer/command.rs); if any of these reads fails the check, no write
frame is sent. -/
theorem set_max_fan_speed_mode_precondition (dev : Transport) (st : SimState)
    (mode : MaxFanSpeedMode)
    (hw : 0 < ((set_max_fan_speed_mode dev st mode).1.sent.drop
      st.sent.length).countP isMaxFanWrite) :
    ∃ m cb gb,
      (get_perf_mode dev st).2 = .ok m ∧ m.1 = PerfMode.Custom ∧
      (get_cpu_boost dev (get_perf_mode dev st).1).2 = .ok cb ∧
      (cb = CpuBoost.Boost ∨ cb = CpuBoost.Overclock) ∧
      (get_gpu_boost dev (get_cpu_boost dev (get_perf_mode dev st).1).1).2 = .ok gb ∧
      gb = GpuBoost.High := by
  unfold set_max_fan_speed_mode at hw
  rcases hg : get_perf_mode dev st with ⟨s1, rp⟩
  have e1 : s1 = { st with
      next := st.next + 2
      sent := st.sent ++ [Packet.new 0x0d82 (st.ids st.next) [0, 1, 0, 0],
        Packet.new 0x0d82 (st.ids (st.next + 1)) [0, 2, 0, 0]] } := by
    have hx := get_perf_mode_fst dev st
    rw [hg] at hx
    exact hx
  simp only [hg] at hw ⊢
  rcases rp with e | m
  · exfalso
    rw [e1] at hw
    simp [List.drop_left, isMaxFanWrite, Packet.new] at hw
  · simp only [] at hw ⊢
    by_cases hc : m.1 = PerfMode.Custom
    · rw [if_pos hc] at hw
      rcases hcb : get_cpu_boost dev s1 with ⟨s2, rc⟩
      have e2 : s2 = { s1 with
          next := s1.next + 1
          sent := s1.sent ++
            [Packet.new 0x0d87 (s1.ids s1.next) [0, Cluster.Cpu.toWire, 0]] } := by
        have hx := get_cpu_boost_fst dev s1
        rw [hcb] at hx
        exact hx
      simp only [hcb] at hw ⊢
      rcases rc with e | cb
      · exfalso
        rw [e2, e1] at hw
        simp [List.append_assoc, List.drop_left, isMaxFanWrite, Packet.new] at hw
      · simp only [] at hw ⊢
        by_cases hb : cb = CpuBoost.Boost ∨ cb = CpuBoost.Overclock
        · rw [if_pos hb] at hw
          rcases hgb : get_gpu_boost dev s2 with ⟨s3, rg⟩
          have e3 : s3 = { s2 with
              next := s2.next + 1
              sent := s2.sent ++
                [Packet.new 0x0d87 (s2.ids s2.next) [0, Cluster.Gpu.toWire, 0]] } := by
            have hx := get_gpu_boost_fst dev s2
            rw [hgb] at hx
            exact hx
          simp only [hgb] at hw ⊢
          rcases rg with e | gb
          · exfalso
            rw [e3, e2, e1] at hw
            simp [List.append_assoc, List.drop_left, isMaxFanWrite, Packet.new] at hw
          · simp only [] at hw ⊢
            by_cases hh : gb = GpuBoost.High
            · exact ⟨m, cb, gb, rfl, hc, rfl, hb, rfl, hh⟩
            · exfalso
              rw [if_neg hh] at hw
              rw [e3, e2, e1] at hw
              simp [List.append_assoc, List.drop_left, isMaxFanWrite, Packet.new] at hw
        · exfalso
          rw [if_neg hb] at hw
          rw [e2, e1] at hw
          simp [List.append_assoc, List.drop_left, isMaxFanWrite, Packet.new] at hw
    · exfalso
      rw [if_neg hc] at hw
      rw [e1] at hw
      simp [List.drop_left, isMaxFanWrite, Packet.new] at hw

/-- C9 witness: with a mocked device reporting Custom mode, cpu boost Boost
and gpu boost High, the write goes out and the three preconditions are
recovered from the run. -/
theorem set_max_fan_speed_mode_precondition_witness :
    ∃ m cb gb,
      (get_perf_mode (mockDevice 4 0 4 0 3 2) st0).2 = .ok m ∧
      m.1 = PerfMode.Custom ∧
      (get_cpu_boost (mockDevice 4 0 4 0 3 2)
        (get_perf_mode (mockDevice 4 0 4 0 3 2) st0).1).2 = .ok cb ∧
      (cb = CpuBoost.Boost ∨ cb = CpuBoost.Overclock) ∧
      (get_gpu_boost (mockDevice 4 0 4 0 3 2)
        (get_cpu_boost (mockDevice 4 0 4 0 3 2)
          (get_perf_mode (mockDevice 4 0 4 0 3 2) st0).1).1).2 = .ok gb ∧
      gb = GpuBoost.High :=
  set_max_fan_speed_mode_precondition (mockDevice 4 0 4 0 3 2) st0
    MaxFanSpeedMode.Enable (by decide)

end RazerCtl
